import Mathlib

/-!
Verification of the session-authentication and lock-leasing core of the
Eva Python SDK (`evasdk`), shallowly embedded in Lean 4.

The embedding follows `src/evasdk/eva_http_client.py`,
`src/evasdk/eva_locker.py` and `src/evasdk/eva_errors.py`.  HTTP traffic
and wall-clock readings are modelled as scripts consumed in order; every
externally observable call (HTTP request, session creation/renewal,
lock renew, unlock) is recorded in an event trace.  Python exceptions are
modelled by an error-carrying result type that keeps the state at the
moment the exception was raised, matching Python's no-rollback semantics.
-/

namespace EvaSdk

/-- An HTTP response as seen by the client: a status code and, when the
body is the create-session JSON document, its token field.  A `none`
token models a body without a usable token key. -/
structure Response where
  status_code : Nat
  body_token : Option String := none
  deriving Repr, DecidableEq

/-- The exception classes of `eva_errors.py`, plus `nonEva` for Python
exceptions that are not `EvaError` subclasses (transport errors,
`KeyError`, `IndexError`). -/
inductive EvaErr where
  | validation (msg : String)
  | auth (msg : String)
  | admin (msg : String)
  | server (msg : String)
  | generic (msg : String)
  | lock (msg : String)
  | autoRenew (msg : String)
  | nonEva (msg : String)
  deriving Repr, DecidableEq

/-- Whether the exception is an instance of the `EvaError` base class
(everything in `eva_errors.py` subclasses it; `nonEva` does not). -/
def EvaErr.isEvaError : EvaErr → Bool
  | .nonEva _ => false
  | _ => true

/-- Whether the exception is an `EvaAuthError`. -/
def EvaErr.isAuthErr : EvaErr → Bool
  | .auth _ => true
  | _ => false

/-- The message carried by the exception (Python `str(e)`). -/
def EvaErr.msg : EvaErr → String
  | .validation m => m
  | .auth m => m
  | .admin m => m
  | .server m => m
  | .generic m => m
  | .lock m => m
  | .autoRenew m => m
  | .nonEva m => m

/-- Embeds `__handle_http_error` from `eva_errors.py`: maps a response status to
the exception raised.  The source's duplicated `401` branch is kept
verbatim.  The optional json `error` field only extends the message text
and is omitted from the message model. -/
def handle_http_error (label : String) (status : Nat) : EvaErr :=
  let error_string := label ++ ": status code " ++ toString status
  if status = 401 then .validation error_string
  else if status = 401 then .auth error_string
  else if status = 403 then .admin error_string
  else if 400 ≤ status ∧ status < 500 then .generic error_string
  else if 500 ≤ status ∧ status < 600 then .server error_string
  else .generic error_string

/-- Embeds `eva_error` from `eva_errors.py`: the exception it raises. -/
def eva_error (label : String) (r : Option Response) : EvaErr :=
  match r with
  | some resp => handle_http_error label resp.status_code
  | none => .generic label

/-- The session-relevant instance state of `EvaHTTPClient`. -/
structure ClientState where
  session_token : Option String
  renew_period : Int
  last_renew : Int
  deriving Repr, DecidableEq

/-- Observable session-layer events: each `__api_request` issued, plus
entry markers for `auth_create_session` and `auth_renew_session`. -/
inductive SessionEvent where
  | request (method : String) (path : String)
  | createSession
  | renewSession
  deriving Repr, DecidableEq

/-- The external world: HTTP responses in arrival order and wall-clock
readings (`time.time()`) in reading order. -/
structure HttpEnv where
  responses : List Response
  clock : List Int
  deriving Repr, DecidableEq

/-- One execution context: client state, remaining scripted environment,
and the trace of events so far. -/
structure HttpExec where
  client : ClientState
  env : HttpEnv
  trace : List SessionEvent
  deriving Repr, DecidableEq

/-- Result of a call: like Python, an exception carries the state at the
moment of the raise (mutations made before it persist). -/
inductive Res (σ : Type) (α : Type) where
  | ok (a : α) (s : σ)
  | err (e : EvaErr) (s : σ)
  deriving Repr, DecidableEq

/-- Whether the call returned normally. -/
def Res.isOk {σ α : Type} : Res σ α → Bool
  | .ok _ _ => true
  | .err _ _ => false

/-- Consume the next scripted response; an exhausted script models the
transport library raising (a non-`EvaError` exception). -/
def popResponse (s : HttpExec) : Res HttpExec Response :=
  match s.env.responses with
  | [] => .err (.nonEva "requests connection error") s
  | r :: rest => .ok r { s with env := { s.env with responses := rest } }

/-- One `time.time()` reading, consuming the clock script (0 when
exhausted). -/
def timeNow (s : HttpExec) : Int × HttpExec :=
  match s.env.clock with
  | [] => (0, s)
  | t :: rest => (t, { s with env := { s.env with clock := rest } })

/-- Embeds `__api_request`: issues one HTTP request (recorded in the trace) and
yields the next scripted response.  Header/url construction has no
observable effect beyond the request itself. -/
def api_request (method : String) (path : String) (s : HttpExec) :
    Res HttpExec Response :=
  popResponse { s with trace := s.trace ++ [SessionEvent.request method path] }

/-- Embeds `auth_create_session` (eva_http_client.py lines 121-136): version
check request (result only logged), then `POST auth`; on non-200 raises
via `eva_error`; on success sets `last_renew` to now and stores the
returned token (a missing token key raises `KeyError`). -/
def auth_create_session (s : HttpExec) : Res HttpExec String :=
  let s := { s with trace := s.trace ++ [SessionEvent.createSession] }
  match api_request "GET" "versions" s with
  | .err e s => .err e s
  | .ok _ s =>
    match api_request "POST" "auth" s with
    | .err e s => .err e s
    | .ok r s =>
      if r.status_code ≠ 200 then
        .err (eva_error "auth_create_session request error" (some r)) s
      else
        let (now, s) := timeNow s
        let s := { s with client := { s.client with last_renew := now } }
        match r.body_token with
        | none => .err (.nonEva "KeyError: token") s
        | some tok =>
          .ok tok { s with client := { s.client with session_token := some tok } }

/-- Embeds `auth_renew_session` (lines 105-118): `POST auth/renew`; on 401
clears the token and calls `auth_create_session`; on other non-204
raises via `eva_error`; on 204 updates `last_renew` only. -/
def auth_renew_session (s : HttpExec) : Res HttpExec Unit :=
  let s := { s with trace := s.trace ++ [SessionEvent.renewSession] }
  match api_request "POST" "auth/renew" s with
  | .err e s => .err e s
  | .ok r s =>
    if r.status_code = 401 then
      let s := { s with client := { s.client with session_token := none } }
      match auth_create_session s with
      | .err e s => .err e s
      | .ok _ s => .ok () s
    else if r.status_code ≠ 204 then
      .err (eva_error "auth_renew_session request error" (some r)) s
    else
      let (now, s) := timeNow s
      .ok () { s with client := { s.client with last_renew := now } }

/-- Embeds `auth_invalidate_session` (lines 139-147): `DELETE auth`; on non-204
raises via `eva_error` (token untouched); on 204 clears the token. -/
def auth_invalidate_session (s : HttpExec) : Res HttpExec Unit :=
  match api_request "DELETE" "auth" s with
  | .err e s => .err e s
  | .ok r s =>
    if r.status_code ≠ 204 then
      .err (eva_error "auth_invalidate_session request error" (some r)) s
    else
      .ok () { s with client := { s.client with session_token := none } }

/-- Embeds `api_call_with_auth` (lines 51-68): issue the request; on 401 create
a new session and return the retried request's response directly;
otherwise read the clock once and, if the elapsed time since the last
renewal lies strictly between `renew_period` and 30 minutes, attempt
`auth_renew_session`, turning any `EvaError` from it into
`EvaAutoRenewError`; finally return the first response. -/
def api_call_with_auth (method : String) (path : String) (s : HttpExec) :
    Res HttpExec Response :=
  match api_request method path s with
  | .err e s => .err e s
  | .ok r s =>
    if r.status_code = 401 then
      match auth_create_session s with
      | .err e s => .err e s
      | .ok _ s => api_request method path s
    else
      let (now, s) := timeNow s
      if s.client.renew_period < now - s.client.last_renew ∧
          now - s.client.last_renew < 30 * 60 then
        match auth_renew_session s with
        | .err e s =>
          if e.isEvaError then
            .err (.autoRenew ("Failed to automatically renew, got error " ++ e.msg)) s
          else
            .err e s
        | .ok _ s => .ok r s
      else
        .ok r s

/-!
`EvaWithLocker` from `eva_locker.py`.  The period stack is stored with
its top at the head (Python appends/pops/reads at the end of the list).
The condition-variable discipline makes the renewal thread and the
enter/exit code strictly alternate, so the execution is modelled as a
deterministic interpreter over an explicit operation sequence in which
`timeoutOp` marks a wait deadline expiring in the renewal thread before
the next enter/exit.  `eva.lock_renew()` outcomes come from a script
(`false` models the call raising; an exhausted script means success),
and each `lock_renew` / `unlock` call is recorded in a trace.
-/

/-- The instance state of `EvaWithLocker`.  `thread_alive` records
whether the renewal thread is running. -/
structure LockerState where
  renew_period : Int
  fallback_renew_period : Int
  period_stack : List Int
  thread_alive : Bool
  deriving Repr, DecidableEq

/-- Embeds `EvaWithLocker.__init__`. -/
def initLocker (fallback : Int) : LockerState :=
  { renew_period := fallback
    fallback_renew_period := fallback
    period_stack := []
    thread_alive := false }

/-- Observable calls on the locked eva object. -/
inductive LockEvent where
  | renew
  | unlock
  deriving Repr, DecidableEq

/-- Locker execution context: locker state, scripted `lock_renew`
outcomes, and the trace of calls made so far. -/
structure LockerExec where
  locker : LockerState
  renewOutcomes : List Bool
  trace : List LockEvent
  deriving Repr, DecidableEq

/-- Embeds `eva.lock_renew()`: the call is recorded, then the next scripted
outcome decides whether it raised (`false`). -/
def lock_renew (s : LockerExec) : Bool × LockerExec :=
  let s := { s with trace := s.trace ++ [LockEvent.renew] }
  match s.renewOutcomes with
  | [] => (true, s)
  | b :: rest => (b, { s with renewOutcomes := rest })

/-- Embeds `EvaWithLocker.__try_renew` (lines 88-93): any exception from
`lock_renew` becomes an `EvaLockError`. -/
def try_renew (s : LockerExec) : Res LockerExec Unit :=
  let (okb, s) := lock_renew s
  if okb then .ok () s
  else .err (.lock "with eva context statements require a locked eva object") s

/-- Embeds `EvaWithLocker.__enter__` (lines 39-57).  Outermost (empty stack):
confirm-renew, then push the current period and start the renewal
thread.  Nested: if the requested period differs from the stack top,
confirm-renew, push and notify the timer; otherwise raise
`EvaLockError` without touching anything. -/
def enter (s : LockerExec) : Res LockerExec Unit :=
  if s.locker.period_stack.length = 0 then
    match try_renew s with
    | .err e s => .err e s
    | .ok _ s =>
      .ok () { s with locker :=
        { s.locker with
          period_stack := s.locker.renew_period :: s.locker.period_stack
          thread_alive := true } }
  else
    match s.locker.period_stack with
    | [] => .err (.nonEva "unreachable") s
    | top :: _ =>
      if s.locker.renew_period ≠ top then
        match try_renew s with
        | .err e s => .err e s
        | .ok _ s =>
          -- __reset_timer notifies the thread; being notified (not timed
          -- out) it skips the renew, sees a non-empty stack and re-waits.
          .ok () { s with locker :=
            { s.locker with
              period_stack := s.locker.renew_period :: s.locker.period_stack } }
      else
        .err (.lock "Unneccesary refresh of the lock renewal process, lock is already being renewed with the configured period.") s

/-- Embeds `EvaWithLocker.__exit__` (lines 60-73).  Pop, notify the timer; if
scopes remain, confirm-renew for the resumed outer scope.  If the stack
emptied, the woken thread finds it empty, calls `unlock` and returns;
`__exit__` joins it and `set_renew_period()` resets the period to the
fallback.  Popping an empty stack is a Python `IndexError`. -/
def exitScope (s : LockerExec) : Res LockerExec Unit :=
  match s.locker.period_stack with
  | [] => .err (.nonEva "IndexError: pop from empty list") s
  | _ :: rest =>
    let s := { s with locker := { s.locker with period_stack := rest } }
    if rest.length ≠ 0 then
      match try_renew s with
      | .err e s => .err e s
      | .ok _ s => .ok () s
    else
      .ok () { s with
        trace := s.trace ++ [LockEvent.unlock]
        locker := { s.locker with
          thread_alive := false
          renew_period := s.locker.fallback_renew_period } }

/-- Embeds `EvaWithLocker.set_renew_period` (lines 31-36). -/
def set_renew_period (p : Option Int) (s : LockerExec) : LockerExec :=
  match p with
  | none => { s with locker :=
      { s.locker with renew_period := s.locker.fallback_renew_period } }
  | some q => { s with locker := { s.locker with renew_period := q } }

/-- The renewal thread's wait deadline expiring (`__renewal_timer`,
lines 76-85, timeout branch): `lock_renew` is called; if it raises, the
exception ends the thread (no unlock).  Otherwise the thread re-checks
the stack, unlocking and terminating if it emptied.  When no thread is
running nothing happens. -/
def timer_timeout (s : LockerExec) : LockerExec :=
  if s.locker.thread_alive then
    let (okb, s) := lock_renew s
    if okb then
      if s.locker.period_stack.length = 0 then
        { s with
          trace := s.trace ++ [LockEvent.unlock]
          locker := { s.locker with thread_alive := false } }
      else s
    else
      { s with locker := { s.locker with thread_alive := false } }
  else s

/-- An operation on the locker, as issued by client code or by the
renewal thread's timer. -/
inductive LockerOp where
  | enterOp
  | exitOp
  | timeoutOp
  | setPeriodOp (p : Option Int)
  deriving Repr, DecidableEq

/-- One operation step. -/
def stepOp : LockerOp → LockerExec → Res LockerExec Unit
  | .enterOp, s => enter s
  | .exitOp, s => exitScope s
  | .timeoutOp, s => .ok () (timer_timeout s)
  | .setPeriodOp p, s => .ok () (set_renew_period p s)

/-- Run a sequence of operations, stopping at the first exception. -/
def runOps : List LockerOp → LockerExec → Res LockerExec Unit
  | [], s => .ok () s
  | op :: ops, s =>
    match stepOp op s with
    | .err e s => .err e s
    | .ok _ s => runOps ops s

/-- A fresh locker execution with a given fallback period and
`lock_renew` outcome script. -/
def mkExec (fallback : Int) (outcomes : List Bool) : LockerExec :=
  { locker := initLocker fallback, renewOutcomes := outcomes, trace := [] }

/-- Scope entry with period `p` followed by `t` background-timer
renewals: `set_renew_period(p)` then `__enter__`. -/
def enterBlock : Int × Nat → List LockerOp
  | (p, t) => LockerOp.setPeriodOp (some p) :: LockerOp.enterOp ::
      List.replicate t LockerOp.timeoutOp

/-- Program of `t` background-timer renewals followed by one scope exit. -/
def exitBlock (t : Nat) : List LockerOp :=
  List.replicate t LockerOp.timeoutOp ++ [LockerOp.exitOp]

/-- The nested-scope program of the spec's testable property: scope
entries with periods and trailing timer firings `pts`, then exits in
reverse order, each preceded by its timer firings `xts`. -/
def nestedProg (pts : List (Int × Nat)) (xts : List Nat) : List LockerOp :=
  (pts.map enterBlock).flatten ++ (xts.map exitBlock).flatten

/-- Each requested period differs from the stack top it will meet:
the well-formedness needed for a sequence of scope entries to avoid the
same-period `EvaLockError`. -/
def entersOk : List Int → List (Int × Nat) → Prop
  | _, [] => True
  | stack, (p, _) :: rest =>
    (∀ top r2, stack = top :: r2 → p ≠ top) ∧ entersOk (p :: stack) rest

/-! Helper lemmas shared by the claim theorems. -/

/-- Every exception produced by `__handle_http_error` is an `EvaError`
subclass. -/
theorem handle_http_error_isEvaError (label : String) (status : Nat) :
    (handle_http_error label status).isEvaError = true := by
  simp only [handle_http_error]
  repeat' split
  all_goals simp [EvaErr.isEvaError]

/-- C10: a response with status 401 passed to `eva_error` raises
`EvaValidationError`, and `__handle_http_error` never raises
`EvaAuthError` for any status, its `EvaAuthError` branch repeating the
401 test of the branch before it. -/
theorem c10_eva_error_401_validation_auth_unreachable :
    (∀ (label : String) (tok : Option String),
      eva_error label (some { status_code := 401, body_token := tok }) =
        EvaErr.validation (label ++ ": status code " ++ toString 401)) ∧
    (∀ (label : String) (status : Nat),
      (handle_http_error label status).isAuthErr = false) := by
  constructor
  · intro label tok
    rfl
  · intro label status
    simp only [handle_http_error]
    repeat' split
    all_goals simp_all [EvaErr.isAuthErr]

/-- C8: `auth_invalidate_session` on a 204 response clears the stored
session token (other client state untouched); on any other status it
raises the error built by `eva_error` (the spec's `SessionError`) and
leaves the stored token, and all client state, unchanged. -/
theorem c8_auth_invalidate_session
    (cl : ClientState) (rr : Response) (rest : List Response)
    (ck : List Int) (tr : List SessionEvent) :
    (rr.status_code = 204 →
      auth_invalidate_session
        { client := cl, env := { responses := rr :: rest, clock := ck }, trace := tr } =
      .ok ()
        { client := { cl with session_token := none }
          env := { responses := rest, clock := ck }
          trace := tr ++ [SessionEvent.request "DELETE" "auth"] }) ∧
    (rr.status_code ≠ 204 →
      auth_invalidate_session
        { client := cl, env := { responses := rr :: rest, clock := ck }, trace := tr } =
      .err (handle_http_error "auth_invalidate_session request error" rr.status_code)
        { client := cl
          env := { responses := rest, clock := ck }
          trace := tr ++ [SessionEvent.request "DELETE" "auth"] }) := by
  constructor
  · intro h
    simp [auth_invalidate_session, api_request, popResponse, h, eva_error]
  · intro h
    simp [auth_invalidate_session, api_request, popResponse, h, eva_error]

/-- C8 witness. -/
theorem c8_auth_invalidate_session_witness :
    (auth_invalidate_session
        { client := { session_token := some "tok", renew_period := 1200, last_renew := 0 }
          env := { responses := [{ status_code := 204 }], clock := [] }, trace := [] } =
      .ok ()
        { client := { session_token := none, renew_period := 1200, last_renew := 0 }
          env := { responses := [], clock := [] }
          trace := [SessionEvent.request "DELETE" "auth"] }) ∧
    (auth_invalidate_session
        { client := { session_token := some "tok", renew_period := 1200, last_renew := 0 }
          env := { responses := [{ status_code := 500 }], clock := [] }, trace := [] } =
      .err (handle_http_error "auth_invalidate_session request error" 500)
        { client := { session_token := some "tok", renew_period := 1200, last_renew := 0 }
          env := { responses := [], clock := [] }
          trace := [SessionEvent.request "DELETE" "auth"] }) := by
  constructor
  · exact (c8_auth_invalidate_session _ { status_code := 204 } [] [] []).1 (by decide)
  · exact (c8_auth_invalidate_session _ { status_code := 500 } [] [] []).2 (by decide)

/-- C7: `auth_renew_session` behaviour by response status: 204 updates
only the last-renew timestamp (token unchanged); 401 clears the token
and calls `auth_create_session` instead (which then installs the newly
created token); any other status raises the error built by `eva_error`
(the spec's `SessionError`) with token and timestamp both unchanged. -/
theorem c7_auth_renew_session
    (cl : ClientState) (rr : Response) (tr : List SessionEvent) :
    (∀ (rest : List Response) (c : Int) (cs : List Int), rr.status_code = 204 →
      auth_renew_session
        { client := cl, env := { responses := rr :: rest, clock := c :: cs }, trace := tr } =
      .ok ()
        { client := { cl with last_renew := c }
          env := { responses := rest, clock := cs }
          trace := tr ++ [SessionEvent.renewSession,
                          SessionEvent.request "POST" "auth/renew"] }) ∧
    (∀ (vr ar : Response) (rest : List Response) (c : Int) (cs : List Int) (tok : String),
      rr.status_code = 401 → ar.status_code = 200 → ar.body_token = some tok →
      auth_renew_session
        { client := cl, env := { responses := [rr, vr, ar] ++ rest, clock := c :: cs },
          trace := tr } =
      .ok ()
        { client := { cl with session_token := some tok, last_renew := c }
          env := { responses := rest, clock := cs }
          trace := tr ++ [SessionEvent.renewSession,
                          SessionEvent.request "POST" "auth/renew",
                          SessionEvent.createSession,
                          SessionEvent.request "GET" "versions",
                          SessionEvent.request "POST" "auth"] }) ∧
    (∀ (rest : List Response) (ck : List Int),
      rr.status_code ≠ 204 → rr.status_code ≠ 401 →
      auth_renew_session
        { client := cl, env := { responses := rr :: rest, clock := ck }, trace := tr } =
      .err (handle_http_error "auth_renew_session request error" rr.status_code)
        { client := cl
          env := { responses := rest, clock := ck }
          trace := tr ++ [SessionEvent.renewSession,
                          SessionEvent.request "POST" "auth/renew"] }) := by
  refine ⟨?_, ?_, ?_⟩
  · intro rest c cs h
    simp [auth_renew_session, api_request, popResponse, timeNow, h]
  · intro vr ar rest c cs tok h har htok
    simp [auth_renew_session, auth_create_session, api_request, popResponse, timeNow,
      h, har, htok]
  · intro rest ck h h401
    simp [auth_renew_session, api_request, popResponse, timeNow, h, h401, eva_error]

/-- C7 witness. -/
theorem c7_auth_renew_session_witness :
    (auth_renew_session
        { client := { session_token := some "tok", renew_period := 1200, last_renew := 0 }
          env := { responses := [{ status_code := 204 }], clock := [9] }, trace := [] } =
      .ok ()
        { client := { session_token := some "tok", renew_period := 1200, last_renew := 9 }
          env := { responses := [], clock := [] }
          trace := [SessionEvent.renewSession,
                    SessionEvent.request "POST" "auth/renew"] }) ∧
    (auth_renew_session
        { client := { session_token := some "tok", renew_period := 1200, last_renew := 0 }
          env := { responses := [{ status_code := 401 }, { status_code := 200 },
                                 { status_code := 200, body_token := some "fresh" }]
                   clock := [9] }
          trace := [] } =
      .ok ()
        { client := { session_token := some "fresh", renew_period := 1200, last_renew := 9 }
          env := { responses := [], clock := [] }
          trace := [SessionEvent.renewSession,
                    SessionEvent.request "POST" "auth/renew",
                    SessionEvent.createSession,
                    SessionEvent.request "GET" "versions",
                    SessionEvent.request "POST" "auth"] }) ∧
    (auth_renew_session
        { client := { session_token := some "tok", renew_period := 1200, last_renew := 0 }
          env := { responses := [{ status_code := 500 }], clock := [9] }, trace := [] } =
      .err (handle_http_error "auth_renew_session request error" 500)
        { client := { session_token := some "tok", renew_period := 1200, last_renew := 0 }
          env := { responses := [], clock := [9] }
          trace := [SessionEvent.renewSession,
                    SessionEvent.request "POST" "auth/renew"] }) := by
  refine ⟨?_, ?_, ?_⟩
  · exact (c7_auth_renew_session _ { status_code := 204 } []).1 [] 9 [] (by decide)
  · exact (c7_auth_renew_session _ { status_code := 401 } []).2.1
      { status_code := 200 } { status_code := 200, body_token := some "fresh" }
      [] 9 [] "fresh" (by decide) (by decide) (by decide)
  · exact (c7_auth_renew_session _ { status_code := 500 } []).2.2 [] [9]
      (by decide) (by decide)

/-- C3: when the first request of `api_call_with_auth` returns 401,
exactly one `auth_create_session` call is made (one `createSession`
event, whose own requests are the version check and `POST auth`), the
same request is retried exactly once, and the retried response `r2` is
returned as-is — `r2` is arbitrary here, so a second 401 is returned
like any other response, not retried again. -/
theorem c3_api_call_with_auth_401_retry
    (m p : String) (cl : ClientState) (r1 vr ar r2 : Response)
    (rest : List Response) (c : Int) (cs : List Int) (tr : List SessionEvent)
    (tok : String)
    (h1 : r1.status_code = 401) (har : ar.status_code = 200)
    (htok : ar.body_token = some tok) :
    api_call_with_auth m p
      { client := cl, env := { responses := [r1, vr, ar, r2] ++ rest, clock := c :: cs },
        trace := tr } =
    .ok r2
      { client := { cl with session_token := some tok, last_renew := c }
        env := { responses := rest, clock := cs }
        trace := tr ++ [SessionEvent.request m p,
                        SessionEvent.createSession,
                        SessionEvent.request "GET" "versions",
                        SessionEvent.request "POST" "auth",
                        SessionEvent.request m p] } := by
  simp [api_call_with_auth, auth_create_session, api_request, popResponse, timeNow,
    h1, har, htok]

/-- C3 witness: a 401 answered by a successful session creation and a
retry returning 207 (and the retried response is returned even though it
is not a 200). -/
theorem c3_api_call_with_auth_401_retry_witness :
    api_call_with_auth "GET" "users"
      { client := { session_token := some "old", renew_period := 1200, last_renew := 0 }
        env := { responses := [{ status_code := 401 }, { status_code := 200 },
                               { status_code := 200, body_token := some "tok" },
                               { status_code := 207 }]
                 clock := [5] }
        trace := [] } =
    .ok { status_code := 207 }
      { client := { session_token := some "tok", renew_period := 1200, last_renew := 5 }
        env := { responses := [], clock := [] }
        trace := [SessionEvent.request "GET" "users",
                  SessionEvent.createSession,
                  SessionEvent.request "GET" "versions",
                  SessionEvent.request "POST" "auth",
                  SessionEvent.request "GET" "users"] } :=
  c3_api_call_with_auth_401_retry "GET" "users" _
    { status_code := 401 } { status_code := 200 }
    { status_code := 200, body_token := some "tok" } { status_code := 207 }
    [] 5 [] [] "tok" (by decide) (by decide) (by decide)

/-- C1 counterexample: a successful 200 response followed by a failed
opportunistic renewal (status 500, inside the renewal window:
renew_period 1200 < elapsed 1300 < 1800).  `api_call_with_auth` raises
`EvaAutoRenewError` — the result is an exception, not the original 200
response, so the claim that the call still returns the original response
is false. -/
theorem c1_counterexample :
    api_call_with_auth "GET" "users"
      { client := { session_token := some "t", renew_period := 1200, last_renew := 0 }
        env := { responses := [{ status_code := 200 }, { status_code := 500 }]
                 clock := [1300] }
        trace := [] } =
    .err (.autoRenew ("Failed to automatically renew, got error " ++
            "auth_renew_session request error: status code 500"))
      { client := { session_token := some "t", renew_period := 1200, last_renew := 0 }
        env := { responses := [], clock := [] }
        trace := [SessionEvent.request "GET" "users",
                  SessionEvent.renewSession,
                  SessionEvent.request "POST" "auth/renew"] } ∧
    ∀ (r : Response) (s : HttpExec),
      api_call_with_auth "GET" "users"
        { client := { session_token := some "t", renew_period := 1200, last_renew := 0 }
          env := { responses := [{ status_code := 200 }, { status_code := 500 }]
                   clock := [1300] }
          trace := [] } ≠ .ok r s := by
  refine ⟨by decide, ?_⟩
  intro r s h
  rw [show api_call_with_auth "GET" "users"
      { client := { session_token := some "t", renew_period := 1200, last_renew := 0 }
        env := { responses := [{ status_code := 200 }, { status_code := 500 }]
                 clock := [1300] }
        trace := [] } =
    .err (.autoRenew ("Failed to automatically renew, got error " ++
            "auth_renew_session request error: status code 500"))
      { client := { session_token := some "t", renew_period := 1200, last_renew := 0 }
        env := { responses := [], clock := [] }
        trace := [SessionEvent.request "GET" "users",
                  SessionEvent.renewSession,
                  SessionEvent.request "POST" "auth/renew"] } from by decide] at h
  exact Res.noConfusion h

/-- C1 amended: when the primary request succeeds (non-401), the elapsed
time is inside the renewal window, and the opportunistic
`auth_renew_session` fails with an `EvaError` (any status other than 401
and 204), `api_call_with_auth` raises `EvaAutoRenewError` wrapping that
failure instead of returning the original response; the successful
primary response is discarded.  Client state is left as it was. -/
theorem c1_auto_renew_failure_raises
    (m p : String) (cl : ClientState) (r1 rr : Response)
    (rest : List Response) (c : Int) (cs : List Int) (tr : List SessionEvent)
    (h1 : r1.status_code ≠ 401)
    (hwin1 : cl.renew_period < c - cl.last_renew)
    (hwin2 : c - cl.last_renew < 30 * 60)
    (hr401 : rr.status_code ≠ 401) (hr204 : rr.status_code ≠ 204) :
    api_call_with_auth m p
      { client := cl, env := { responses := [r1, rr] ++ rest, clock := c :: cs },
        trace := tr } =
    .err (.autoRenew ("Failed to automatically renew, got error " ++
            (handle_http_error "auth_renew_session request error" rr.status_code).msg))
      { client := cl
        env := { responses := rest, clock := cs }
        trace := tr ++ [SessionEvent.request m p,
                        SessionEvent.renewSession,
                        SessionEvent.request "POST" "auth/renew"] } := by
  simp [api_call_with_auth, auth_renew_session, api_request, popResponse, timeNow,
    h1, hr401, hr204, hwin1, hwin2, eva_error, handle_http_error_isEvaError]
  omega

/-- C1 amended witness. -/
theorem c1_auto_renew_failure_raises_witness :
    api_call_with_auth "GET" "users"
      { client := { session_token := some "t", renew_period := 1200, last_renew := 0 }
        env := { responses := [{ status_code := 200 }, { status_code := 500 }]
                 clock := [1300] }
        trace := [] } =
    .err (.autoRenew ("Failed to automatically renew, got error " ++
            (handle_http_error "auth_renew_session request error" 500).msg))
      { client := { session_token := some "t", renew_period := 1200, last_renew := 0 }
        env := { responses := [], clock := [] }
        trace := [SessionEvent.request "GET" "users",
                  SessionEvent.renewSession,
                  SessionEvent.request "POST" "auth/renew"] } :=
  c1_auto_renew_failure_raises "GET" "users" _
    { status_code := 200 } { status_code := 500 } [] 1300 [] []
    (by decide) (by decide) (by decide) (by decide) (by decide)

/-- C4 counterexample: first request returns 401 and the elapsed time is
far beyond the renewal window (renew_period 10, last renewal at 0, clock
at 100).  On this retry path no `renewSession` event occurs and the
spare scripted renewal response is left unconsumed: the opportunistic
renewal check is skipped on the retry path, so it is not performed on
both paths as claimed. -/
theorem c4_counterexample :
    api_call_with_auth "GET" "users"
      { client := { session_token := some "old", renew_period := 10, last_renew := 0 }
        env := { responses := [{ status_code := 401 }, { status_code := 200 },
                               { status_code := 200, body_token := some "tok" },
                               { status_code := 200 }, { status_code := 204 }]
                 clock := [100, 101] }
        trace := [] } =
    .ok { status_code := 200 }
      { client := { session_token := some "tok", renew_period := 10, last_renew := 100 }
        env := { responses := [{ status_code := 204 }], clock := [101] }
        trace := [SessionEvent.request "GET" "users",
                  SessionEvent.createSession,
                  SessionEvent.request "GET" "versions",
                  SessionEvent.request "POST" "auth",
                  SessionEvent.request "GET" "users"] } ∧
    SessionEvent.renewSession ∉
      [SessionEvent.request "GET" "users",
       SessionEvent.createSession,
       SessionEvent.request "GET" "versions",
       SessionEvent.request "POST" "auth",
       SessionEvent.request "GET" "users"] := by
  exact ⟨by decide, by decide⟩

/-- C4 amended: the opportunistic renewal check runs only on the
no-retry path.  (a) On the 401-retry path `api_call_with_auth` returns
immediately after the retry: no `renewSession` event is ever emitted,
whatever the clock says.  (b) On the no-retry path the check is
performed: with the window elapsed and a 204 renewal response, a
`renewSession` event is emitted and the timestamp updated. -/
theorem c4_renew_check_only_without_retry :
    (∀ (m p : String) (cl : ClientState) (r1 vr ar r2 : Response)
        (rest : List Response) (c : Int) (cs : List Int) (tok : String),
      r1.status_code = 401 → ar.status_code = 200 → ar.body_token = some tok →
      ∀ res s1, api_call_with_auth m p
          { client := cl, env := { responses := [r1, vr, ar, r2] ++ rest, clock := c :: cs },
            trace := [] } = .ok res s1 →
        SessionEvent.renewSession ∉ s1.trace) ∧
    (∀ (m p : String) (cl : ClientState) (r1 rr : Response)
        (rest : List Response) (c c2 : Int) (cs : List Int) (tr : List SessionEvent),
      r1.status_code ≠ 401 →
      cl.renew_period < c - cl.last_renew → c - cl.last_renew < 30 * 60 →
      rr.status_code = 204 →
      api_call_with_auth m p
        { client := cl, env := { responses := [r1, rr] ++ rest, clock := c :: c2 :: cs },
          trace := tr } =
      .ok r1
        { client := { cl with last_renew := c2 }
          env := { responses := rest, clock := cs }
          trace := tr ++ [SessionEvent.request m p,
                          SessionEvent.renewSession,
                          SessionEvent.request "POST" "auth/renew"] }) := by
  constructor
  · intro m p cl r1 vr ar r2 rest c cs tok h1 har htok res s1 hrun
    rw [c3_api_call_with_auth_401_retry m p cl r1 vr ar r2 rest c cs [] tok h1 har htok]
      at hrun
    cases hrun
    simp
  · intro m p cl r1 rr rest c c2 cs tr h1 hwin1 hwin2 h204
    simp [api_call_with_auth, auth_renew_session, api_request, popResponse, timeNow,
      h1, h204, hwin1, hwin2]
    omega

/-- C4 amended witness. -/
theorem c4_renew_check_only_without_retry_witness :
    (SessionEvent.renewSession ∉
      [SessionEvent.request "GET" "users",
       SessionEvent.createSession,
       SessionEvent.request "GET" "versions",
       SessionEvent.request "POST" "auth",
       SessionEvent.request "GET" "users"]) ∧
    api_call_with_auth "GET" "users"
      { client := { session_token := some "t", renew_period := 1200, last_renew := 0 }
        env := { responses := [{ status_code := 200 }, { status_code := 204 }]
                 clock := [1300, 1301] }
        trace := [] } =
    .ok { status_code := 200 }
      { client := { session_token := some "t", renew_period := 1200, last_renew := 1301 }
        env := { responses := [], clock := [] }
        trace := [SessionEvent.request "GET" "users",
                  SessionEvent.renewSession,
                  SessionEvent.request "POST" "auth/renew"] } := by
  constructor
  · exact c4_renew_check_only_without_retry.1 "GET" "users"
      { session_token := some "old", renew_period := 10, last_renew := 0 }
      { status_code := 401 } { status_code := 200 }
      { status_code := 200, body_token := some "tok" } { status_code := 200 }
      [] 100 [] "tok" (by decide) (by decide) (by decide)
      { status_code := 200 }
      { client := { session_token := some "tok", renew_period := 10, last_renew := 100 }
        env := { responses := [], clock := [] }
        trace := [SessionEvent.request "GET" "users",
                  SessionEvent.createSession,
                  SessionEvent.request "GET" "versions",
                  SessionEvent.request "POST" "auth",
                  SessionEvent.request "GET" "users"] }
      (by decide)
  · exact c4_renew_check_only_without_retry.2 "GET" "users" _
      { status_code := 200 } { status_code := 204 } [] 1300 1301 [] []
      (by decide) (by decide) (by decide) (by decide)

/-- C5: a nested `__enter__` (non-empty period stack) whose requested
period equals the current stack top raises `EvaLockError` and returns
the execution state completely unchanged: nothing is pushed and
`lock_renew` is not called (the trace gains no event). -/
theorem c5_nested_enter_same_period
    (s : LockerExec) (top : Int) (rest : List Int)
    (hstack : s.locker.period_stack = top :: rest)
    (heq : s.locker.renew_period = top) :
    enter s = .err (.lock "Unneccesary refresh of the lock renewal process, lock is already being renewed with the configured period.") s := by
  simp [enter, hstack, heq]

/-- C5 witness. -/
theorem c5_nested_enter_same_period_witness :
    enter
      { locker := { renew_period := 10, fallback_renew_period := 30,
                    period_stack := [10], thread_alive := true }
        renewOutcomes := [], trace := [] } =
    .err (.lock "Unneccesary refresh of the lock renewal process, lock is already being renewed with the configured period.")
      { locker := { renew_period := 10, fallback_renew_period := 30,
                    period_stack := [10], thread_alive := true }
        renewOutcomes := [], trace := [] } :=
  c5_nested_enter_same_period _ 10 [] rfl rfl

/-- C6: an outermost `__enter__` (empty period stack) whose initial
confirm-renew fails raises `EvaLockError`; the resulting state keeps the
locker untouched (stack still empty, `thread_alive` still as it was, so
the renewal thread is never started) and the only new event is the
failed `lock_renew` call — in particular no `unlock` is ever issued. -/
theorem c6_outermost_enter_renew_failure
    (s : LockerExec) (outs : List Bool)
    (hstack : s.locker.period_stack = [])
    (houts : s.renewOutcomes = false :: outs) :
    enter s = .err (.lock "with eva context statements require a locked eva object")
      { s with renewOutcomes := outs, trace := s.trace ++ [LockEvent.renew] } ∧
    ∀ s1 e, enter s = .err e s1 →
      s1.locker = s.locker ∧ s1.trace = s.trace ++ [LockEvent.renew] ∧
        LockEvent.unlock ∉ [LockEvent.renew] := by
  have hmain : enter s =
      .err (.lock "with eva context statements require a locked eva object")
        { s with renewOutcomes := outs, trace := s.trace ++ [LockEvent.renew] } := by
    simp [enter, try_renew, lock_renew, hstack, houts]
  refine ⟨hmain, ?_⟩
  intro s1 e h
  rw [hmain] at h
  cases h
  exact ⟨rfl, rfl, by simp⟩

/-- C6 witness. -/
theorem c6_outermost_enter_renew_failure_witness :
    enter (mkExec 30 [false]) =
      .err (.lock "with eva context statements require a locked eva object")
        { locker := initLocker 30, renewOutcomes := [], trace := [LockEvent.renew] } :=
  (c6_outermost_enter_renew_failure (mkExec 30 [false]) [] rfl rfl).1

/-- C9: an outermost `__exit__` (singleton period stack) pops the stack,
lets the renewal thread unlock and terminate, and resets the renewal
period to the fallback — the resulting locker state is exactly
`initLocker fallback`, the state of a freshly constructed
`EvaWithLocker`, whatever the pre-exit period and flags were.  Since
every operation is a function of the execution state, a subsequent
outermost enter from this state makes the same calls and produces the
same state as the first-ever enter on a fresh locker. -/
theorem c9_outermost_exit_resets_to_fresh
    (s : LockerExec) (q : Int)
    (hstack : s.locker.period_stack = [q]) :
    exitScope s = .ok ()
      { s with trace := s.trace ++ [LockEvent.unlock]
               locker := initLocker s.locker.fallback_renew_period } ∧
    ∀ (outs : List Bool) (s1 : LockerExec), exitScope s = .ok () s1 →
      enter { locker := s1.locker, renewOutcomes := outs, trace := [] } =
        enter (mkExec s.locker.fallback_renew_period outs) := by
  have hmain : exitScope s = .ok ()
      { s with trace := s.trace ++ [LockEvent.unlock]
               locker := initLocker s.locker.fallback_renew_period } := by
    simp [exitScope, hstack, initLocker]
  refine ⟨hmain, ?_⟩
  intro outs s1 h
  rw [hmain] at h
  cases h
  rfl

/-- C9 witness. -/
theorem c9_outermost_exit_resets_to_fresh_witness :
    exitScope
      { locker := { renew_period := 99, fallback_renew_period := 30,
                    period_stack := [7], thread_alive := true }
        renewOutcomes := [], trace := [LockEvent.renew] } =
    .ok ()
      { locker := initLocker 30, renewOutcomes := []
        trace := [LockEvent.renew, LockEvent.unlock] } :=
  (c9_outermost_exit_resets_to_fresh
    { locker := { renew_period := 99, fallback_renew_period := 30,
                  period_stack := [7], thread_alive := true }
      renewOutcomes := [], trace := [LockEvent.renew] } 7 rfl).1

/-! Run lemmas for the nested-scope programs (claim C2). -/

/-- Running an appended program whose first piece succeeds continues
from the reached state. -/
theorem runOps_append_ok (a b : List LockerOp) (s s1 : LockerExec)
    (h : runOps a s = .ok () s1) :
    runOps (a ++ b) s = runOps b s1 := by
  induction a generalizing s with
  | nil =>
    simp only [runOps] at h
    cases h
    simp [runOps]
  | cons op ops ih =>
    simp only [List.cons_append, runOps] at h ⊢
    cases hst : stepOp op s with
    | err e s2 =>
      rw [hst] at h
      exact absurd h (by simp)
    | ok u s2 =>
      rw [hst] at h
      exact ih s2 h

/-- A successful single step prepended to a program. -/
theorem runOps_cons_ok (op : LockerOp) (ops : List LockerOp) (s s1 : LockerExec)
    (h : stepOp op s = .ok () s1) : runOps (op :: ops) s = runOps ops s1 := by
  simp [runOps, h]

/-- Running `t` timer firings while the thread is alive, the stack non-empty and
every renewal succeeding: `t` renew calls, nothing else changes. -/
theorem run_timeouts (t : Nat) (s : LockerExec)
    (halive : s.locker.thread_alive = true)
    (hstack : s.locker.period_stack ≠ [])
    (houts : s.renewOutcomes = []) :
    runOps (List.replicate t LockerOp.timeoutOp) s =
      .ok () { s with trace := s.trace ++ List.replicate t LockEvent.renew } := by
  induction t generalizing s with
  | zero => simp [runOps]
  | succ n ih =>
    rw [List.replicate_succ]
    simp only [runOps, stepOp]
    have hstep : timer_timeout s = { s with trace := s.trace ++ [LockEvent.renew] } := by
      simp [timer_timeout, lock_renew, halive, houts, List.length_eq_zero, hstack]
    rw [hstep]
    rw [ih { s with trace := s.trace ++ [LockEvent.renew] } halive hstack houts]
    simp [List.replicate_succ, List.append_assoc]

/-- One `enterBlock`: `set_renew_period(p)`, a successful `__enter__`
(outermost or nested with a different period), then `t` timer firings:
`1 + t` renew calls, `p` pushed, the thread running. -/
theorem run_enterBlock (p : Int) (t : Nat) (s : LockerExec)
    (halive : s.locker.thread_alive = !s.locker.period_stack.isEmpty)
    (houts : s.renewOutcomes = [])
    (hne : ∀ top r2, s.locker.period_stack = top :: r2 → p ≠ top) :
    runOps (enterBlock (p, t)) s =
      .ok () { s with
        locker := { s.locker with
          renew_period := p
          period_stack := p :: s.locker.period_stack
          thread_alive := true }
        trace := s.trace ++ List.replicate (1 + t) LockEvent.renew } := by
  have hblock : enterBlock (p, t) =
      LockerOp.setPeriodOp (some p) :: LockerOp.enterOp ::
        List.replicate t LockerOp.timeoutOp := rfl
  have h1 : stepOp (LockerOp.setPeriodOp (some p)) s =
      .ok () { s with locker := { s.locker with renew_period := p } } := rfl
  have h2 : stepOp LockerOp.enterOp
        { s with locker := { s.locker with renew_period := p } } =
      .ok () { s with
        locker := { s.locker with
          renew_period := p
          period_stack := p :: s.locker.period_stack
          thread_alive := true }
        trace := s.trace ++ [LockEvent.renew] } := by
    cases hstack : s.locker.period_stack with
    | nil => simp [stepOp, enter, try_renew, lock_renew, hstack, houts]
    | cons top rest =>
      have hptop : p ≠ top := hne top rest hstack
      have halive2 : s.locker.thread_alive = true := by simp [halive, hstack]
      simp [stepOp, enter, try_renew, lock_renew, hstack, hptop, houts, halive2]
  rw [hblock, runOps_cons_ok _ _ _ _ h1, runOps_cons_ok _ _ _ _ h2]
  refine (run_timeouts t
    { s with
      locker := { s.locker with
        renew_period := p
        period_stack := p :: s.locker.period_stack
        thread_alive := true }
      trace := s.trace ++ [LockEvent.renew] } rfl (by simp) houts).trans ?_
  have harr : List.replicate (1 + t) LockEvent.renew =
      [LockEvent.renew] ++ List.replicate t LockEvent.renew := List.replicate_add 1 t _
  rw [harr]
  simp [List.append_assoc]

/-- Fact: `entersOk` follows from the requested periods being consecutively
distinct, given the first of them differs from the current top. -/
theorem entersOk_cons_of_chain (pts : List (Int × Nat)) :
    ∀ (p : Int) (stack : List Int),
      List.Chain' (fun a b => a ≠ b) (p :: pts.map Prod.fst) →
      entersOk (p :: stack) pts := by
  induction pts with
  | nil => intro p stack _; trivial
  | cons pt rest ih =>
    intro p stack h
    obtain ⟨q, t⟩ := pt
    rw [List.map_cons, List.chain'_cons] at h
    refine ⟨?_, ih q (p :: stack) h.2⟩
    intro top r2 heq hqe
    cases heq
    exact h.1 hqe.symm

/-- Fact: `entersOk` from an empty stack follows from consecutive
distinctness alone. -/
theorem entersOk_nil_of_chain (pts : List (Int × Nat))
    (h : List.Chain' (fun a b => a ≠ b) (pts.map Prod.fst)) : entersOk [] pts := by
  cases pts with
  | nil => trivial
  | cons pt rest =>
    obtain ⟨p, t⟩ := pt
    rw [List.map_cons] at h
    exact ⟨fun top r2 heq => absurd heq (by simp),
      entersOk_cons_of_chain rest p [] h⟩

/-- The whole enter phase: each entry makes one confirm-renew call plus
its timer firings; the periods pile up on the stack. -/
theorem run_enterPhase (pts : List (Int × Nat)) (s : LockerExec)
    (halive : s.locker.thread_alive = !s.locker.period_stack.isEmpty)
    (houts : s.renewOutcomes = [])
    (hok : entersOk s.locker.period_stack pts) :
    ∃ rp, runOps ((pts.map enterBlock).flatten) s =
      .ok () { s with
        locker := { s.locker with
          renew_period := rp
          period_stack := (pts.map Prod.fst).reverse ++ s.locker.period_stack
          thread_alive := !((pts.map Prod.fst).reverse ++ s.locker.period_stack).isEmpty }
        trace := s.trace ++
          List.replicate (pts.length + (pts.map Prod.snd).sum) LockEvent.renew } := by
  induction pts generalizing s with
  | nil =>
    refine ⟨s.locker.renew_period, ?_⟩
    simp [runOps, ← halive]
  | cons pt rest ih =>
    obtain ⟨p, t⟩ := pt
    obtain ⟨hne, hok2⟩ := hok
    rw [List.map_cons, List.flatten_cons]
    rw [runOps_append_ok _ _ _ _ (run_enterBlock p t s halive houts hne)]
    obtain ⟨rp, hrest⟩ := ih
      { s with
        locker := { s.locker with
          renew_period := p
          period_stack := p :: s.locker.period_stack
          thread_alive := true }
        trace := s.trace ++ List.replicate (1 + t) LockEvent.renew }
      (by simp) houts hok2
    refine ⟨rp, hrest.trans ?_⟩
    simp only [List.map_cons, List.reverse_cons, List.length_cons, List.sum_cons,
      List.append_assoc, List.singleton_append, ← List.replicate_add]
    rw [show 1 + t + (rest.length + (rest.map Prod.snd).sum) =
        rest.length + 1 + (t + (rest.map Prod.snd).sum) from by omega]

/-- Exits that leave outer scopes open: each makes its timer firings
plus one confirm-renew call for the resumed outer scope; no unlock. -/
theorem run_exits_inner (xts : List Nat) (s : LockerExec)
    (halive : s.locker.thread_alive = true)
    (houts : s.renewOutcomes = [])
    (hlen : xts.length < s.locker.period_stack.length) :
    runOps ((xts.map exitBlock).flatten) s =
      .ok () { s with
        locker := { s.locker with
          period_stack := s.locker.period_stack.drop xts.length }
        trace := s.trace ++
          List.replicate (xts.sum + xts.length) LockEvent.renew } := by
  induction xts generalizing s with
  | nil => simp [runOps]
  | cons t rest ih =>
    cases hstack : s.locker.period_stack with
    | nil => rw [hstack] at hlen; simp at hlen
    | cons a tail =>
      have htail : tail ≠ [] := by
        rw [hstack] at hlen
        simp only [List.length_cons] at hlen
        intro hnil
        rw [hnil] at hlen
        simp at hlen
      have hto : runOps (List.replicate t LockerOp.timeoutOp) s =
          .ok () { s with trace := s.trace ++ List.replicate t LockEvent.renew } :=
        run_timeouts t s halive (by simp [hstack]) houts
      have hexit : stepOp LockerOp.exitOp
            { s with trace := s.trace ++ List.replicate t LockEvent.renew } =
          .ok () { s with
            locker := { s.locker with period_stack := tail }
            trace := (s.trace ++ List.replicate t LockEvent.renew) ++ [LockEvent.renew] } := by
        simp [stepOp, exitScope, hstack, List.length_eq_zero, htail, try_renew,
          lock_renew, houts]
      rw [List.map_cons, List.flatten_cons]
      rw [show exitBlock t = List.replicate t LockerOp.timeoutOp ++ [LockerOp.exitOp]
        from rfl]
      rw [List.append_assoc]
      rw [runOps_append_ok _ _ _ _ hto]
      rw [List.singleton_append]
      rw [runOps_cons_ok _ _ _ _ hexit]
      have hrest := ih { s with
            locker := { s.locker with period_stack := tail }
            trace := (s.trace ++ List.replicate t LockEvent.renew) ++ [LockEvent.renew] }
        halive houts (by
          simp only [hstack, List.length_cons] at hlen
          simpa using Nat.lt_of_succ_lt_succ hlen)
      refine hrest.trans ?_
      simp only [hstack, List.drop_succ_cons, List.sum_cons, List.length_cons,
        List.append_assoc, List.singleton_append, ← List.replicate_succ,
        ← List.replicate_add]
      rw [show t + Nat.succ (rest.sum + rest.length) =
          t + rest.sum + (rest.length + 1) from by omega]

/-- The final exit block: timer firings, then the outermost exit, whose
notified thread unlocks and terminates; the period resets to the
fallback. -/
theorem run_exitBlock_last (t : Nat) (q : Int) (s : LockerExec)
    (halive : s.locker.thread_alive = true)
    (hstack : s.locker.period_stack = [q])
    (houts : s.renewOutcomes = []) :
    runOps (exitBlock t) s =
      .ok () { s with
        locker := { s.locker with
          period_stack := []
          thread_alive := false
          renew_period := s.locker.fallback_renew_period }
        trace := s.trace ++
          (List.replicate t LockEvent.renew ++ [LockEvent.unlock]) } := by
  have hto : runOps (List.replicate t LockerOp.timeoutOp) s =
      .ok () { s with trace := s.trace ++ List.replicate t LockEvent.renew } :=
    run_timeouts t s halive (by simp [hstack]) houts
  have hexit : stepOp LockerOp.exitOp
        { s with trace := s.trace ++ List.replicate t LockEvent.renew } =
      .ok () { s with
        locker := { s.locker with
          period_stack := []
          thread_alive := false
          renew_period := s.locker.fallback_renew_period }
        trace := (s.trace ++ List.replicate t LockEvent.renew) ++ [LockEvent.unlock] } := by
    simp [stepOp, exitScope, hstack]
  rw [show exitBlock t = List.replicate t LockerOp.timeoutOp ++ [LockerOp.exitOp]
    from rfl]
  rw [runOps_append_ok _ _ _ _ hto]
  rw [runOps_cons_ok _ _ _ _ hexit]
  simp [runOps, List.append_assoc]

/-- C2 counterexample: two nested scope-enters with distinct periods
(10 then 20) followed by two exits, with no background-timer firings.
The code makes 3 `lock_renew` calls — one per enter plus one on the
inner exit for the resumed outer scope — not the N = 2 the claim
predicts; unlock is called once. -/
theorem c2_counterexample :
    runOps (nestedProg [(10, 0), (20, 0)] [0, 0]) (mkExec 30 []) =
      .ok () { locker := initLocker 30, renewOutcomes := []
               trace := [LockEvent.renew, LockEvent.renew, LockEvent.renew,
                         LockEvent.unlock] } ∧
    [LockEvent.renew, LockEvent.renew, LockEvent.renew,
      LockEvent.unlock].count LockEvent.renew = 3 ∧
    ¬ [LockEvent.renew, LockEvent.renew, LockEvent.renew,
        LockEvent.unlock].count LockEvent.renew = 2 := by
  refine ⟨by decide, by decide, by decide⟩

/-- C2 (amended): for N nested scope-enters with pairwise-distinct
periods followed by N exits in reverse order, with `pts` listing each
enter's period and the background-timer renewals after it and `xts` the
background-timer renewals before each exit, the run succeeds and the
total number of `lock_renew` calls is N + (N - 1) + T: one per enter,
one per non-outermost exit (for the resumed outer scope), and one per
background-timeout renewal (T the total timer firings).  `unlock` is
called exactly once, as the very last call, and the locker ends in the
freshly-constructed state. -/
theorem c2_nested_scopes_renew_unlock_counts
    (pts : List (Int × Nat)) (xts : List Nat) (fb : Int)
    (hpne : pts ≠ []) (hlen : pts.length = xts.length)
    (hdist : (pts.map Prod.fst).Pairwise (fun a b => a ≠ b)) :
    ∃ s1, runOps (nestedProg pts xts) (mkExec fb []) = .ok () s1 ∧
      s1.trace.count LockEvent.renew =
        (pts.length + (pts.length - 1)) + ((pts.map Prod.snd).sum + xts.sum) ∧
      s1.trace.count LockEvent.unlock = 1 ∧
      s1.trace.getLast? = some LockEvent.unlock ∧
      s1.locker = initLocker fb := by
  have hok : entersOk [] pts := entersOk_nil_of_chain pts hdist.chain'
  have hxne : xts ≠ [] := by
    intro h
    rw [h] at hlen
    exact hpne (List.length_eq_zero.mp (by simpa using hlen))
  obtain hx | ⟨ys, tN, hxts⟩ := xts.eq_nil_or_concat'
  · exact absurd hx hxne
  subst hxts
  have hyslen : ys.length + 1 = pts.length := by simpa using hlen.symm
  have hPne : ((pts.map Prod.fst).reverse).isEmpty = false := by
    simp [List.isEmpty_iff, hpne]
  obtain ⟨rp, hE0⟩ := run_enterPhase pts (mkExec fb []) (by rfl) rfl hok
  -- normalise the state reached after the enter phase
  obtain ⟨sE, hE, hsE⟩ :
      ∃ sE, runOps ((pts.map enterBlock).flatten) (mkExec fb []) = .ok () sE ∧
        sE = { locker :=
                 { renew_period := rp
                   fallback_renew_period := fb
                   period_stack := (pts.map Prod.fst).reverse
                   thread_alive := true }
               renewOutcomes := []
               trace := List.replicate (pts.length + (pts.map Prod.snd).sum)
                 LockEvent.renew } :=
    ⟨_, hE0, by simp [mkExec, initLocker, hPne]⟩
  have halE : sE.locker.thread_alive = true := by rw [hsE]
  have houtE : sE.renewOutcomes = [] := by rw [hsE]
  have hstElen : sE.locker.period_stack.length = pts.length := by
    rw [hsE]; simp
  have hIlen : ys.length < sE.locker.period_stack.length := by
    rw [hstElen]; omega
  have hI0 := run_exits_inner ys sE halE houtE hIlen
  have hdrop1 : (sE.locker.period_stack.drop ys.length).length = 1 := by
    rw [List.length_drop, hstElen]; omega
  obtain ⟨q, hq⟩ := List.length_eq_one.mp hdrop1
  -- normalise the state reached after the inner exits
  obtain ⟨sX, hI, hsX⟩ :
      ∃ sX, runOps ((ys.map exitBlock).flatten) sE = .ok () sX ∧
        sX = { locker :=
                 { renew_period := rp
                   fallback_renew_period := fb
                   period_stack := [q]
                   thread_alive := true }
               renewOutcomes := []
               trace := List.replicate (pts.length + (pts.map Prod.snd).sum)
                   LockEvent.renew ++
                 List.replicate (ys.sum + ys.length) LockEvent.renew } :=
    ⟨_, hI0, by rw [hsE] at hq ⊢; simpa using hq⟩
  have hF := run_exitBlock_last tN q sX (by rw [hsX]) (by rw [hsX]) (by rw [hsX])
  refine ⟨{ locker := initLocker fb
            renewOutcomes := []
            trace := (List.replicate (pts.length + (pts.map Prod.snd).sum)
                  LockEvent.renew ++
                List.replicate (ys.sum + ys.length) LockEvent.renew) ++
              (List.replicate tN LockEvent.renew ++ [LockEvent.unlock]) },
    ?_, ?_, ?_, ?_, rfl⟩
  · rw [nestedProg]
    rw [runOps_append_ok _ _ _ _ hE]
    rw [show (((ys ++ [tN]).map exitBlock).flatten : List LockerOp) =
        (ys.map exitBlock).flatten ++ exitBlock tN by simp [List.map_append]]
    rw [runOps_append_ok _ _ _ _ hI]
    rw [hF]
    rw [hsX]
    simp [initLocker]
  · simp [List.count_append, List.count_replicate, List.sum_append]
    omega
  · simp [List.count_append, List.count_replicate]
  · rw [← List.append_assoc]
    simp

/-- C2 (amended) witness: two enters (periods 10 and 20, one timer
firing after the first) and two exits (two timer firings before the
final one): 3 synchronous renews plus 3 background renews, one final
unlock. -/
theorem c2_nested_scopes_renew_unlock_counts_witness :
    ∃ s1, runOps (nestedProg [(10, 1), (20, 0)] [0, 2]) (mkExec 30 []) = .ok () s1 ∧
      s1.trace.count LockEvent.renew = (2 + 1) + (1 + 2) ∧
      s1.trace.count LockEvent.unlock = 1 ∧
      s1.trace.getLast? = some LockEvent.unlock ∧
      s1.locker = initLocker 30 :=
  c2_nested_scopes_renew_unlock_counts [(10, 1), (20, 0)] [0, 2] 30
    (by decide) (by decide) (by decide)

end EvaSdk
